import Mathlib

/-!
Shallow embedding of the flexy-fit responsive fitting library.

Source layout:
* FlexyFit.tsx holds the public gate component: checkResponsive, checkBreakpoint,
  the mount effect that registers checkResponsive as the window resize listener,
  and the render expression that shows the fit engine only when
  responsiveView and breakpointView are both true.
* The fit engine component (FlexyFitInternal) holds resize, keepSyncRatio
  (embedded here as keepSync) and parentResize, together with the initial
  inline style that renders the container with hidden visibility and zero
  opacity.

Modelling conventions: layout dimensions are rationals; the DOM reads of one
callback invocation are bundled into a Measurement value; React state reads
inside a callback see the state of the render that created the callback, so
each embedded callback reads the pre-call state everywhere and returns the
queued state updates as the post-call state. The renderer only writes style
properties whose value changed between renders, and the inline visibility and
opacity entries are constant, so a re-render never re-applies the suppression
that resize removed from the live element.
-/

set_option maxHeartbeats 1000000

namespace FlexyFitModel

/-- Fit axis, source union type "width" | "height". -/
inductive FitAxis where
  | width
  | height
deriving DecidableEq

/-- Named responsive tiers, source union type "sm" | "md" | "lg" | "xl" | "2xl"
(the last one is spelled xxl here because a Lean name cannot start with a digit). -/
inductive Tier where
  | sm
  | md
  | lg
  | xl
  | xxl
deriving DecidableEq

/-- Measured geometry of the parent element during one callback: clientWidth,
clientHeight and the getBoundingClientRect width and height. -/
structure ParentMeasure where
  clientWidth : ℚ
  clientHeight : ℚ
  rectWidth : ℚ
  rectHeight : ℚ
deriving DecidableEq

/-- DOM reads of the fitted element during one callback invocation:
its client box, the parent element when present, and whether the element has
a first child (ref.current.children[0]). -/
structure Measurement where
  clientWidth : ℚ
  clientHeight : ℚ
  parent : Option ParentMeasure
  childPresent : Bool
deriving DecidableEq

/-- Props consumed by the fit engine component (after the gate strips
responsive and breakpoint): width, height, fitTo, overflow, flex, px. -/
structure InternalProps where
  width : Option ℚ
  height : Option ℚ
  fitTo : Option FitAxis
  overflow : Bool
  flex : Bool
  px : Bool
deriving DecidableEq

/-- Mutable state of one mounted fit engine instance: the four useState cells
plus the style properties that the callbacks write on the live elements. -/
structure InternalState where
  initialWidth : Option ℚ
  initialHeight : Option ℚ
  fullParentWidth : Option ℚ
  fullParentHeight : Option ℚ
  visibilityHidden : Bool
  opacityZero : Bool
  transform : Option ℚ
  childWidthPx : Option ℚ
  childHeightPx : Option ℚ
  childFlexShrink0 : Bool
deriving DecidableEq

/-- State right after the first render of a mount: every useState cell is null
and the inline style carries visibility hidden and opacity zero. -/
def initialState : InternalState :=
  { initialWidth := none
    initialHeight := none
    fullParentWidth := none
    fullParentHeight := none
    visibilityHidden := true
    opacityZero := true
    transform := none
    childWidthPx := none
    childHeightPx := none
    childFlexShrink0 := false }

/-- Nullish coalescing of the source, width = propWidth ?? initialWidth. -/
def resolveDim (propVal : Option ℚ) (initialVal : Option ℚ) : Option ℚ :=
  match propVal with
  | some v => some v
  | none => initialVal

/-- Source lines 47 to 50 of the fit engine: when both client dimensions are
nonzero, capture each initial dimension that is still null. -/
def captureInitial (m : Measurement) (s : InternalState) : InternalState :=
  if m.clientWidth ≠ 0 ∧ m.clientHeight ≠ 0 then
    { s with
      initialWidth := if s.initialWidth = none then some m.clientWidth else s.initialWidth
      initialHeight := if s.initialHeight = none then some m.clientHeight else s.initialHeight }
  else s

/-- Source lines 52 to 62: capture the parent bounding rect once, while both
fullParent cells are still null. -/
def captureParentRect (m : Measurement) (s : InternalState) : InternalState :=
  match m.parent with
  | some pm =>
    if s.fullParentWidth = none ∧ s.fullParentHeight = none then
      { s with fullParentWidth := some pm.rectWidth, fullParentHeight := some pm.rectHeight }
    else s
  | none => s

/-- Source lines 67 to 70: when the element still has hidden visibility,
remove the visibility and opacity suppression. -/
def unhide (s : InternalState) : InternalState :=
  if s.visibilityHidden then { s with visibilityHidden := false, opacityZero := false } else s

/-- Embedding of the source function keepSyncRatio (fit engine lines 103 to
134): guard on the element, its parent and the resolved width and height, then
when the origin ratio differs from the parent ratio write the explicit pixel
size of the first child along the driving axis. -/
def keepSync (widthO heightO : Option ℚ) (m : Measurement) (axis : FitAxis)
    (s : InternalState) : InternalState :=
  match m.parent with
  | none => s
  | some pm =>
    match widthO, heightO with
    | some width, some height =>
      match axis with
      | FitAxis.width =>
        if width / height ≠ pm.clientWidth / pm.clientHeight then
          if m.childPresent then
            { s with
              childWidthPx := some width
              childHeightPx :=
                some (height * ((width / height) / (pm.clientWidth / pm.clientHeight))) }
          else s
        else s
      | FitAxis.height =>
        if width / height ≠ pm.clientWidth / pm.clientHeight then
          if m.childPresent then
            { s with
              childHeightPx := some height
              childWidthPx :=
                some (width * ((pm.clientWidth / pm.clientHeight) / (width / height))) }
          else s
        else s
    | _, _ => s

/-- Source lines 72 to 95: choose the scale factor by the resolved fit axis,
redirecting to the other axis when overflow is disallowed and the would-be
scaled size exceeds the parent client box, and run the ratio sync with the
chosen driving axis when flex is set. The transform cell holds the single
scalar of the isotropic scale(...) written by the source. -/
def fitTransform (p : InternalProps) (m : Measurement) (width height : ℚ)
    (s : InternalState) : InternalState :=
  match p.fitTo.getD FitAxis.width, m.parent with
  | FitAxis.width, some pm =>
    if p.overflow = false ∧ height * (m.clientWidth / width) > pm.clientHeight then
      (if p.flex then
        keepSync (some width) (some height) m FitAxis.height
          { s with transform := some (m.clientHeight / height) }
      else { s with transform := some (m.clientHeight / height) })
    else
      (if p.flex then
        keepSync (some width) (some height) m FitAxis.width
          { s with transform := some (m.clientWidth / width) }
      else { s with transform := some (m.clientWidth / width) })
  | FitAxis.height, some pm =>
    if p.overflow = false ∧ width * (m.clientHeight / height) > pm.clientWidth then
      (if p.flex then
        keepSync (some width) (some height) m FitAxis.width
          { s with transform := some (m.clientWidth / width) }
      else { s with transform := some (m.clientWidth / width) })
    else
      (if p.flex then
        keepSync (some width) (some height) m FitAxis.height
          { s with transform := some (m.clientHeight / height) }
      else { s with transform := some (m.clientHeight / height) })
  | _, none => s

/-- Source lines 97 to 100: mark the first child as non shrinkable. -/
def applyFlexShrink (m : Measurement) (s : InternalState) : InternalState :=
  if m.childPresent then { s with childFlexShrink0 := true } else s

/-- Embedding of the source callback resize (fit engine lines 44 to 101),
for an invocation where ref.current is present and reads the measurement m.
The captures always run; the computation is gated on the resolved width and
height and on the initial size cells of the pre-call render being non null. -/
def resize (p : InternalProps) (m : Measurement) (s : InternalState) : InternalState :=
  match resolveDim p.width s.initialWidth, resolveDim p.height s.initialHeight with
  | some width, some height =>
    if s.initialWidth = none ∨ s.initialHeight = none then
      captureParentRect m (captureInitial m s)
    else
      applyFlexShrink m
        (fitTransform p m width height (unhide (captureParentRect m (captureInitial m s))))
  | _, _ => captureParentRect m (captureInitial m s)

/-- Embedding of the source callback parentResize (fit engine lines 33 to 42):
refresh both fullParent cells from the parent bounding rect. -/
def parentResize (m : Measurement) (s : InternalState) : InternalState :=
  match m.parent with
  | some pm => { s with fullParentWidth := some pm.rectWidth, fullParentHeight := some pm.rectHeight }
  | none => s

/-- One observer or effect firing inside a mount. A none measurement models an
invocation where ref.current is null, which the source turns into a no-op. -/
inductive FitEvent where
  | resizeEv (m : Option Measurement)
  | parentResizeEv (m : Option Measurement)

/-- Dispatch of one event; the props component of the pair lets the props
differ between firings (the props effect re-runs resize on each prop change). -/
def step (p : InternalProps) (e : FitEvent) (s : InternalState) : InternalState :=
  match e with
  | FitEvent.resizeEv none => s
  | FitEvent.resizeEv (some m) => resize p m s
  | FitEvent.parentResizeEv none => s
  | FitEvent.parentResizeEv (some m) => parentResize m s

/-- Run of a whole event sequence within one mount. -/
def run : List (InternalProps × FitEvent) → InternalState → InternalState
  | [], s => s
  | (p, e) :: es, s => run es (step p e s)

/-- Specification helper for the capture claims: the first resize measurement
of the sequence whose client dimensions are both nonzero. -/
def firstNonzeroMeasure : List (InternalProps × FitEvent) → Option Measurement
  | [] => none
  | (_, FitEvent.resizeEv (some m)) :: es =>
    if m.clientWidth ≠ 0 ∧ m.clientHeight ≠ 0 then some m else firstNonzeroMeasure es
  | _ :: es => firstNonzeroMeasure es

/-- Optional lower and upper bound of one breakpoint dimension. -/
structure DimRange where
  min : Option ℚ
  max : Option ℚ
deriving DecidableEq

/-- Explicit breakpoint range spec of the gate props. -/
structure Breakpoint where
  width : Option DimRange
  height : Option DimRange
deriving DecidableEq

/-- Embedding of checkResponsive (FlexyFit.tsx lines 15 to 62) for an
environment where the window object exists: the returned value is what the
callback stores into responsiveView. -/
def checkResponsive (responsive : Option (List Tier)) (w : ℚ) : Bool :=
  match responsive with
  | none => true
  | some rs =>
    if rs.length = 0 then true
    else if Tier.sm ∈ rs ∧ w ≤ 640 then true
    else if Tier.md ∈ rs ∧ w ≤ 768 ∧ 640 < w then true
    else if Tier.lg ∈ rs ∧ w ≤ 1024 ∧ 768 < w then true
    else if Tier.xl ∈ rs ∧ w ≤ 1280 ∧ 1024 < w then true
    else if Tier.xxl ∈ rs ∧ w ≤ 1536 ∧ 1280 < w then true
    else if Tier.xxl ∈ rs ∧ 1536 < w then true
    else false

/-- The condition value computed by checkBreakpoint (FlexyFit.tsx lines 71 to
104): starts true and each present bound can only set it to false. -/
def breakpointCond (b : Breakpoint) (iw ih : ℚ) : Bool :=
  let c1 :=
    match b.width with
    | none => true
    | some r =>
      let ca :=
        match r.max with
        | some mx => if iw > mx then false else true
        | none => true
      match r.min with
      | some mn => if iw < mn then false else ca
      | none => ca
  match b.height with
  | none => c1
  | some r =>
    let cb :=
      match r.max with
      | some mx => if ih > mx then false else c1
      | none => c1
    match r.min with
    | some mn => if ih < mn then false else cb
    | none => cb

/-- The two useState cells of the gate component. -/
structure GateState where
  responsiveView : Bool
  breakpointView : Bool
deriving DecidableEq

/-- Gate state right after the first render: both cells start false. -/
def gateStart : GateState :=
  { responsiveView := false, breakpointView := false }

/-- Effect of one checkResponsive call on the gate state. -/
def checkResponsiveStep (responsive : Option (List Tier)) (w : ℚ) (s : GateState) : GateState :=
  { s with responsiveView := checkResponsive responsive w }

/-- Effect of one checkBreakpoint call on the gate state. With no breakpoint
prop it sets breakpointView to true; with a breakpoint prop the source stores
the computed condition through setResponsiveView (FlexyFit.tsx line 106) and
leaves breakpointView untouched. -/
def checkBreakpointStep (bp : Option Breakpoint) (iw ih : ℚ) (s : GateState) : GateState :=
  match bp with
  | none => { s with breakpointView := true }
  | some b => { s with responsiveView := breakpointCond b iw ih }

/-- Gate state after the mount effect (FlexyFit.tsx lines 109 to 117), which
calls checkResponsive and then checkBreakpoint at the current viewport. -/
def gateMount (responsive : Option (List Tier)) (bp : Option Breakpoint)
    (iw ih : ℚ) : GateState :=
  checkBreakpointStep bp iw ih (checkResponsiveStep responsive iw gateStart)

/-- Effect of one window resize event: the mount effect registered only
checkResponsive as the resize listener (FlexyFit.tsx line 113). -/
def gateResize (responsive : Option (List Tier)) (iw : ℚ) (s : GateState) : GateState :=
  checkResponsiveStep responsive iw s

/-- The render guard of the gate (FlexyFit.tsx line 119): the engine subtree
is rendered exactly when both cells are true. -/
def gateVisible (s : GateState) : Bool :=
  s.responsiveView && s.breakpointView

/-- Public props of the FlexyFit component. -/
structure FlexyFitProps where
  width : Option ℚ
  height : Option ℚ
  fitTo : Option FitAxis
  overflow : Bool
  flex : Bool
  px : Bool
  responsive : Option (List Tier)
  breakpoint : Option Breakpoint
deriving DecidableEq

/-- Props the gate hands to the fit engine (FlexyFit.tsx lines 120 to 122):
the rest spread forwards every field except responsive, breakpoint and
children, and the explicit fitTo attribute written after the spread wins, so
the engine always receives fitTo width. -/
def toInternalProps (p : FlexyFitProps) : InternalProps :=
  { width := p.width
    height := p.height
    fitTo := some FitAxis.width
    overflow := p.overflow
    flex := p.flex
    px := p.px }

/-- Tier bands as the spec states them, for the refinement statement of the
tier gate: sm is w at most 640, md is 640 exclusive to 768 inclusive, lg is
768 exclusive to 1024 inclusive, xl is 1024 exclusive to 1280 inclusive, and
xxl is everything above 1280. -/
def tierBandSpec : Tier → ℚ → Prop
  | Tier.sm, w => w ≤ 640
  | Tier.md, w => 640 < w ∧ w ≤ 768
  | Tier.lg, w => 768 < w ∧ w ≤ 1024
  | Tier.xl, w => 1024 < w ∧ w ≤ 1280
  | Tier.xxl, w => 1280 < w

/-! Preservation lemmas: each embedded block only writes the state cells that
the corresponding source block writes. -/

@[simp] lemma captureInitial_fullParentWidth (m : Measurement) (s : InternalState) :
    (captureInitial m s).fullParentWidth = s.fullParentWidth := by
  unfold captureInitial; split <;> rfl

@[simp] lemma captureInitial_fullParentHeight (m : Measurement) (s : InternalState) :
    (captureInitial m s).fullParentHeight = s.fullParentHeight := by
  unfold captureInitial; split <;> rfl

@[simp] lemma captureInitial_visibilityHidden (m : Measurement) (s : InternalState) :
    (captureInitial m s).visibilityHidden = s.visibilityHidden := by
  unfold captureInitial; split <;> rfl

@[simp] lemma captureInitial_opacityZero (m : Measurement) (s : InternalState) :
    (captureInitial m s).opacityZero = s.opacityZero := by
  unfold captureInitial; split <;> rfl

@[simp] lemma captureInitial_transform (m : Measurement) (s : InternalState) :
    (captureInitial m s).transform = s.transform := by
  unfold captureInitial; split <;> rfl

@[simp] lemma captureInitial_childWidthPx (m : Measurement) (s : InternalState) :
    (captureInitial m s).childWidthPx = s.childWidthPx := by
  unfold captureInitial; split <;> rfl

@[simp] lemma captureInitial_childHeightPx (m : Measurement) (s : InternalState) :
    (captureInitial m s).childHeightPx = s.childHeightPx := by
  unfold captureInitial; split <;> rfl

lemma captureInitial_initialWidth (m : Measurement) (s : InternalState) :
    (captureInitial m s).initialWidth =
      if m.clientWidth ≠ 0 ∧ m.clientHeight ≠ 0 then
        (if s.initialWidth = none then some m.clientWidth else s.initialWidth)
      else s.initialWidth := by
  unfold captureInitial; split <;> simp_all

lemma captureInitial_initialHeight (m : Measurement) (s : InternalState) :
    (captureInitial m s).initialHeight =
      if m.clientWidth ≠ 0 ∧ m.clientHeight ≠ 0 then
        (if s.initialHeight = none then some m.clientHeight else s.initialHeight)
      else s.initialHeight := by
  unfold captureInitial; split <;> simp_all

@[simp] lemma captureParentRect_initialWidth (m : Measurement) (s : InternalState) :
    (captureParentRect m s).initialWidth = s.initialWidth := by
  unfold captureParentRect; split <;> (try split) <;> rfl

@[simp] lemma captureParentRect_initialHeight (m : Measurement) (s : InternalState) :
    (captureParentRect m s).initialHeight = s.initialHeight := by
  unfold captureParentRect; split <;> (try split) <;> rfl

@[simp] lemma captureParentRect_visibilityHidden (m : Measurement) (s : InternalState) :
    (captureParentRect m s).visibilityHidden = s.visibilityHidden := by
  unfold captureParentRect; split <;> (try split) <;> rfl

@[simp] lemma captureParentRect_opacityZero (m : Measurement) (s : InternalState) :
    (captureParentRect m s).opacityZero = s.opacityZero := by
  unfold captureParentRect; split <;> (try split) <;> rfl

@[simp] lemma captureParentRect_transform (m : Measurement) (s : InternalState) :
    (captureParentRect m s).transform = s.transform := by
  unfold captureParentRect; split <;> (try split) <;> rfl

@[simp] lemma captureParentRect_childWidthPx (m : Measurement) (s : InternalState) :
    (captureParentRect m s).childWidthPx = s.childWidthPx := by
  unfold captureParentRect; split <;> (try split) <;> rfl

@[simp] lemma captureParentRect_childHeightPx (m : Measurement) (s : InternalState) :
    (captureParentRect m s).childHeightPx = s.childHeightPx := by
  unfold captureParentRect; split <;> (try split) <;> rfl

@[simp] lemma unhide_initialWidth (s : InternalState) :
    (unhide s).initialWidth = s.initialWidth := by
  unfold unhide; split <;> rfl

@[simp] lemma unhide_initialHeight (s : InternalState) :
    (unhide s).initialHeight = s.initialHeight := by
  unfold unhide; split <;> rfl

@[simp] lemma unhide_transform (s : InternalState) :
    (unhide s).transform = s.transform := by
  unfold unhide; split <;> rfl

@[simp] lemma unhide_childWidthPx (s : InternalState) :
    (unhide s).childWidthPx = s.childWidthPx := by
  unfold unhide; split <;> rfl

@[simp] lemma unhide_childHeightPx (s : InternalState) :
    (unhide s).childHeightPx = s.childHeightPx := by
  unfold unhide; split <;> rfl

@[simp] lemma unhide_visibilityHidden (s : InternalState) :
    (unhide s).visibilityHidden = false := by
  unfold unhide; split
  · rfl
  · simp_all

lemma unhide_opacityZero_of_hidden (s : InternalState) (h : s.visibilityHidden = true) :
    (unhide s).opacityZero = false := by
  unfold unhide; split
  · rfl
  · simp_all

lemma unhide_opacityZero_of_false (s : InternalState) (h : s.opacityZero = false) :
    (unhide s).opacityZero = false := by
  unfold unhide; split
  · rfl
  · exact h

@[simp] lemma keepSync_initialWidth (a b : Option ℚ) (m : Measurement) (ax : FitAxis)
    (s : InternalState) : (keepSync a b m ax s).initialWidth = s.initialWidth := by
  unfold keepSync
  rcases m.parent with _ | pm
  · rfl
  · rcases a with _ | w <;> rcases b with _ | h <;> try rfl
    rcases ax <;> dsimp only <;> split <;> (try split) <;> rfl

@[simp] lemma keepSync_initialHeight (a b : Option ℚ) (m : Measurement) (ax : FitAxis)
    (s : InternalState) : (keepSync a b m ax s).initialHeight = s.initialHeight := by
  unfold keepSync
  rcases m.parent with _ | pm
  · rfl
  · rcases a with _ | w <;> rcases b with _ | h <;> try rfl
    rcases ax <;> dsimp only <;> split <;> (try split) <;> rfl

@[simp] lemma keepSync_visibilityHidden (a b : Option ℚ) (m : Measurement) (ax : FitAxis)
    (s : InternalState) : (keepSync a b m ax s).visibilityHidden = s.visibilityHidden := by
  unfold keepSync
  rcases m.parent with _ | pm
  · rfl
  · rcases a with _ | w <;> rcases b with _ | h <;> try rfl
    rcases ax <;> dsimp only <;> split <;> (try split) <;> rfl

@[simp] lemma keepSync_opacityZero (a b : Option ℚ) (m : Measurement) (ax : FitAxis)
    (s : InternalState) : (keepSync a b m ax s).opacityZero = s.opacityZero := by
  unfold keepSync
  rcases m.parent with _ | pm
  · rfl
  · rcases a with _ | w <;> rcases b with _ | h <;> try rfl
    rcases ax <;> dsimp only <;> split <;> (try split) <;> rfl

@[simp] lemma keepSync_transform (a b : Option ℚ) (m : Measurement) (ax : FitAxis)
    (s : InternalState) : (keepSync a b m ax s).transform = s.transform := by
  unfold keepSync
  rcases m.parent with _ | pm
  · rfl
  · rcases a with _ | w <;> rcases b with _ | h <;> try rfl
    rcases ax <;> dsimp only <;> split <;> (try split) <;> rfl

lemma keepSync_childPx_congr (a b : Option ℚ) (m : Measurement) (ax : FitAxis)
    (s₁ s₂ : InternalState) (hw : s₁.childWidthPx = s₂.childWidthPx)
    (hh : s₁.childHeightPx = s₂.childHeightPx) :
    (keepSync a b m ax s₁).childWidthPx = (keepSync a b m ax s₂).childWidthPx ∧
    (keepSync a b m ax s₁).childHeightPx = (keepSync a b m ax s₂).childHeightPx := by
  unfold keepSync
  rcases m.parent with _ | pm
  · exact ⟨hw, hh⟩
  · rcases a with _ | w <;> rcases b with _ | h
    · exact ⟨hw, hh⟩
    · exact ⟨hw, hh⟩
    · exact ⟨hw, hh⟩
    · rcases ax <;> dsimp only <;> split <;> (try split) <;> exact ⟨by simp_all, by simp_all⟩

@[simp] lemma applyFlexShrink_initialWidth (m : Measurement) (s : InternalState) :
    (applyFlexShrink m s).initialWidth = s.initialWidth := by
  unfold applyFlexShrink; split <;> rfl

@[simp] lemma applyFlexShrink_initialHeight (m : Measurement) (s : InternalState) :
    (applyFlexShrink m s).initialHeight = s.initialHeight := by
  unfold applyFlexShrink; split <;> rfl

@[simp] lemma applyFlexShrink_visibilityHidden (m : Measurement) (s : InternalState) :
    (applyFlexShrink m s).visibilityHidden = s.visibilityHidden := by
  unfold applyFlexShrink; split <;> rfl

@[simp] lemma applyFlexShrink_opacityZero (m : Measurement) (s : InternalState) :
    (applyFlexShrink m s).opacityZero = s.opacityZero := by
  unfold applyFlexShrink; split <;> rfl

@[simp] lemma applyFlexShrink_transform (m : Measurement) (s : InternalState) :
    (applyFlexShrink m s).transform = s.transform := by
  unfold applyFlexShrink; split <;> rfl

@[simp] lemma applyFlexShrink_childWidthPx (m : Measurement) (s : InternalState) :
    (applyFlexShrink m s).childWidthPx = s.childWidthPx := by
  unfold applyFlexShrink; split <;> rfl

@[simp] lemma applyFlexShrink_childHeightPx (m : Measurement) (s : InternalState) :
    (applyFlexShrink m s).childHeightPx = s.childHeightPx := by
  unfold applyFlexShrink; split <;> rfl

@[simp] lemma fitTransform_initialWidth (p : InternalProps) (m : Measurement)
    (w h : ℚ) (s : InternalState) :
    (fitTransform p m w h s).initialWidth = s.initialWidth := by
  unfold fitTransform
  rcases p.fitTo.getD FitAxis.width <;> rcases m.parent with _ | pm <;> dsimp only <;>
    try rfl
  all_goals split <;> split <;> simp

@[simp] lemma fitTransform_initialHeight (p : InternalProps) (m : Measurement)
    (w h : ℚ) (s : InternalState) :
    (fitTransform p m w h s).initialHeight = s.initialHeight := by
  unfold fitTransform
  rcases p.fitTo.getD FitAxis.width <;> rcases m.parent with _ | pm <;> dsimp only <;>
    try rfl
  all_goals split <;> split <;> simp

@[simp] lemma fitTransform_visibilityHidden (p : InternalProps) (m : Measurement)
    (w h : ℚ) (s : InternalState) :
    (fitTransform p m w h s).visibilityHidden = s.visibilityHidden := by
  unfold fitTransform
  rcases p.fitTo.getD FitAxis.width <;> rcases m.parent with _ | pm <;> dsimp only <;>
    try rfl
  all_goals split <;> split <;> simp

@[simp] lemma fitTransform_opacityZero (p : InternalProps) (m : Measurement)
    (w h : ℚ) (s : InternalState) :
    (fitTransform p m w h s).opacityZero = s.opacityZero := by
  unfold fitTransform
  rcases p.fitTo.getD FitAxis.width <;> rcases m.parent with _ | pm <;> dsimp only <;>
    try rfl
  all_goals split <;> split <;> simp

@[simp] lemma parentResize_initialWidth (m : Measurement) (s : InternalState) :
    (parentResize m s).initialWidth = s.initialWidth := by
  unfold parentResize; split <;> rfl

@[simp] lemma parentResize_initialHeight (m : Measurement) (s : InternalState) :
    (parentResize m s).initialHeight = s.initialHeight := by
  unfold parentResize; split <;> rfl

@[simp] lemma parentResize_visibilityHidden (m : Measurement) (s : InternalState) :
    (parentResize m s).visibilityHidden = s.visibilityHidden := by
  unfold parentResize; split <;> rfl

@[simp] lemma parentResize_opacityZero (m : Measurement) (s : InternalState) :
    (parentResize m s).opacityZero = s.opacityZero := by
  unfold parentResize; split <;> rfl

/-! Characterizations of one resize invocation. -/

/-- When the pre-call initial width is still null the computation phase of
resize is skipped and only the two captures run. -/
lemma resize_of_initial_none (p : InternalProps) (m : Measurement) (s : InternalState)
    (h : s.initialWidth = none ∨ s.initialHeight = none) :
    resize p m s = captureParentRect m (captureInitial m s) := by
  unfold resize
  rcases hw : resolveDim p.width s.initialWidth with _ | W
  · rfl
  · rcases hh : resolveDim p.height s.initialHeight with _ | H
    · rfl
    · simp only [hw, hh]
      rw [if_pos h]

/-- When either resolved dimension is null the computation phase of resize is
skipped and only the two captures run. -/
lemma resize_of_unresolved (p : InternalProps) (m : Measurement) (s : InternalState)
    (h : resolveDim p.width s.initialWidth = none ∨ resolveDim p.height s.initialHeight = none) :
    resize p m s = captureParentRect m (captureInitial m s) := by
  unfold resize
  rcases hw : resolveDim p.width s.initialWidth with _ | W
  · rfl
  · rcases hh : resolveDim p.height s.initialHeight with _ | H
    · rfl
    · rcases h with h | h
      · rw [hw] at h; cases h
      · rw [hh] at h; cases h

/-- When the resolved dimensions and the captured initial size are all present,
resize runs the whole pipeline of the source in order. -/
lemma resize_of_resolved (p : InternalProps) (m : Measurement) (s : InternalState)
    (W H : ℚ) (hW : resolveDim p.width s.initialWidth = some W)
    (hH : resolveDim p.height s.initialHeight = some H)
    (hiw : s.initialWidth ≠ none) (hih : s.initialHeight ≠ none) :
    resize p m s =
      applyFlexShrink m
        (fitTransform p m W H (unhide (captureParentRect m (captureInitial m s)))) := by
  unfold resize
  simp only [hW, hH]
  rw [if_neg (by simp [hiw, hih])]

/-- The initial size cells after resize are exactly those after the capture
block. -/
lemma resize_initialWidth (p : InternalProps) (m : Measurement) (s : InternalState) :
    (resize p m s).initialWidth = (captureInitial m s).initialWidth := by
  by_cases h : s.initialWidth = none ∨ s.initialHeight = none
  · rw [resize_of_initial_none p m s h]; simp
  · rcases hw : resolveDim p.width s.initialWidth with _ | W
    · rw [resize_of_unresolved p m s (Or.inl hw)]; simp
    · rcases hh : resolveDim p.height s.initialHeight with _ | H
      · rw [resize_of_unresolved p m s (Or.inr hh)]; simp
      · push_neg at h
        rw [resize_of_resolved p m s W H hw hh h.1 h.2]; simp

lemma resize_initialHeight (p : InternalProps) (m : Measurement) (s : InternalState) :
    (resize p m s).initialHeight = (captureInitial m s).initialHeight := by
  by_cases h : s.initialWidth = none ∨ s.initialHeight = none
  · rw [resize_of_initial_none p m s h]; simp
  · rcases hw : resolveDim p.width s.initialWidth with _ | W
    · rw [resize_of_unresolved p m s (Or.inl hw)]; simp
    · rcases hh : resolveDim p.height s.initialHeight with _ | H
      · rw [resize_of_unresolved p m s (Or.inr hh)]; simp
      · push_neg at h
        rw [resize_of_resolved p m s W H hw hh h.1 h.2]; simp

/-- Scale factor written by one resize invocation whose computation phase runs:
the source branch structure over the fit axis, the parent presence and the
overflow comparison. -/
lemma resize_transform_char (p : InternalProps) (m : Measurement) (s : InternalState)
    (W H : ℚ) (hW : resolveDim p.width s.initialWidth = some W)
    (hH : resolveDim p.height s.initialHeight = some H)
    (hiw : s.initialWidth ≠ none) (hih : s.initialHeight ≠ none) :
    (resize p m s).transform =
      match p.fitTo.getD FitAxis.width, m.parent with
      | FitAxis.width, some pm =>
        some (if p.overflow = false ∧ H * (m.clientWidth / W) > pm.clientHeight then
          m.clientHeight / H else m.clientWidth / W)
      | FitAxis.height, some pm =>
        some (if p.overflow = false ∧ W * (m.clientHeight / H) > pm.clientWidth then
          m.clientWidth / W else m.clientHeight / H)
      | _, none => s.transform := by
  rw [resize_of_resolved p m s W H hW hH hiw hih]
  simp only [applyFlexShrink_transform]
  unfold fitTransform
  rcases p.fitTo.getD FitAxis.width <;> rcases m.parent with _ | pm <;> dsimp only <;>
    try simp
  all_goals split <;> split <;> simp

/-! Invariants over event sequences. -/

lemma step_initial_some (p : InternalProps) (e : FitEvent) (s : InternalState)
    (w h : ℚ) (hw : s.initialWidth = some w) (hh : s.initialHeight = some h) :
    (step p e s).initialWidth = some w ∧ (step p e s).initialHeight = some h := by
  cases e with
  | resizeEv om =>
    cases om with
    | none => exact ⟨hw, hh⟩
    | some m =>
      simp only [step, resize_initialWidth, resize_initialHeight,
        captureInitial_initialWidth, captureInitial_initialHeight, hw, hh]
      constructor <;> split <;> simp
  | parentResizeEv om =>
    cases om with
    | none => exact ⟨hw, hh⟩
    | some m => simp [step, hw, hh]

lemma run_initial_some (es : List (InternalProps × FitEvent)) :
    ∀ (s : InternalState) (w h : ℚ), s.initialWidth = some w → s.initialHeight = some h →
      (run es s).initialWidth = some w ∧ (run es s).initialHeight = some h := by
  induction es with
  | nil => intro s w h hw hh; exact ⟨hw, hh⟩
  | cons pe es ih =>
    intro s w h hw hh
    obtain ⟨h1, h2⟩ := step_initial_some pe.1 pe.2 s w h hw hh
    rcases pe with ⟨p, e⟩
    exact ih (step p e s) w h h1 h2

lemma run_initial_from_none (es : List (InternalProps × FitEvent)) :
    ∀ (s : InternalState), s.initialWidth = none → s.initialHeight = none →
      (run es s).initialWidth = (firstNonzeroMeasure es).map Measurement.clientWidth ∧
      (run es s).initialHeight = (firstNonzeroMeasure es).map Measurement.clientHeight := by
  induction es with
  | nil => intro s h1 h2; simp [run, firstNonzeroMeasure, h1, h2]
  | cons pe es ih =>
    rcases pe with ⟨p, e⟩
    intro s h1 h2
    cases e with
    | resizeEv om =>
      cases om with
      | none =>
        simpa [run, step, firstNonzeroMeasure] using ih s h1 h2
      | some m =>
        by_cases hv : m.clientWidth ≠ 0 ∧ m.clientHeight ≠ 0
        · have hcw : (resize p m s).initialWidth = some m.clientWidth := by
            rw [resize_initialWidth, captureInitial_initialWidth, if_pos hv, h1]; rfl
          have hch : (resize p m s).initialHeight = some m.clientHeight := by
            rw [resize_initialHeight, captureInitial_initialHeight, if_pos hv, h2]; rfl
          have hrun := run_initial_some es (resize p m s) _ _ hcw hch
          simpa [run, step, firstNonzeroMeasure, hv] using hrun
        · have hcw : (resize p m s).initialWidth = none := by
            rw [resize_initialWidth, captureInitial_initialWidth, if_neg hv]; exact h1
          have hch : (resize p m s).initialHeight = none := by
            rw [resize_initialHeight, captureInitial_initialHeight, if_neg hv]; exact h2
          simpa [run, step, firstNonzeroMeasure, hv] using ih (resize p m s) hcw hch
    | parentResizeEv om =>
      cases om with
      | none =>
        simpa [run, step, firstNonzeroMeasure] using ih s h1 h2
      | some m =>
        have h1p : (parentResize m s).initialWidth = none := by simp [h1]
        have h2p : (parentResize m s).initialHeight = none := by simp [h2]
        simpa [run, step, firstNonzeroMeasure] using ih (parentResize m s) h1p h2p

/-- A resize invocation never re-applies the visibility suppression. -/
lemma resize_visibilityHidden_false (p : InternalProps) (m : Measurement)
    (s : InternalState) (h : s.visibilityHidden = false) :
    (resize p m s).visibilityHidden = false := by
  by_cases hn : s.initialWidth = none ∨ s.initialHeight = none
  · rw [resize_of_initial_none p m s hn]; simp [h]
  · rcases hw : resolveDim p.width s.initialWidth with _ | W
    · rw [resize_of_unresolved p m s (Or.inl hw)]; simp [h]
    · rcases hh : resolveDim p.height s.initialHeight with _ | H
      · rw [resize_of_unresolved p m s (Or.inr hh)]; simp [h]
      · push_neg at hn
        rw [resize_of_resolved p m s W H hw hh hn.1 hn.2]; simp

/-- A resize invocation never re-applies the opacity suppression. -/
lemma resize_opacityZero_false (p : InternalProps) (m : Measurement)
    (s : InternalState) (h : s.opacityZero = false) :
    (resize p m s).opacityZero = false := by
  by_cases hn : s.initialWidth = none ∨ s.initialHeight = none
  · rw [resize_of_initial_none p m s hn]; simp [h]
  · rcases hw : resolveDim p.width s.initialWidth with _ | W
    · rw [resize_of_unresolved p m s (Or.inl hw)]; simp [h]
    · rcases hh : resolveDim p.height s.initialHeight with _ | H
      · rw [resize_of_unresolved p m s (Or.inr hh)]; simp [h]
      · push_neg at hn
        rw [resize_of_resolved p m s W H hw hh hn.1 hn.2]
        simp only [applyFlexShrink_opacityZero, fitTransform_opacityZero]
        exact unhide_opacityZero_of_false _ (by simp [h])

/-- A resize invocation removes the suppression exactly when the resolved size
and the captured initial size of the pre-call render are all present. -/
lemma resize_unhides_iff (p : InternalProps) (m : Measurement) (s : InternalState)
    (h : s.visibilityHidden = true) :
    ((resize p m s).visibilityHidden = false ∧ (resize p m s).opacityZero = false) ↔
      (resolveDim p.width s.initialWidth ≠ none ∧
       resolveDim p.height s.initialHeight ≠ none ∧
       s.initialWidth ≠ none ∧ s.initialHeight ≠ none) := by
  constructor
  · rintro ⟨hvis, _⟩
    by_cases hn : s.initialWidth = none ∨ s.initialHeight = none
    · rw [resize_of_initial_none p m s hn] at hvis
      simp [h] at hvis
    · rcases hw : resolveDim p.width s.initialWidth with _ | W
      · rw [resize_of_unresolved p m s (Or.inl hw)] at hvis
        simp [h] at hvis
      · rcases hh : resolveDim p.height s.initialHeight with _ | H
        · rw [resize_of_unresolved p m s (Or.inr hh)] at hvis
          simp [h] at hvis
        · push_neg at hn
          exact ⟨by simp [hw], by simp [hh], hn.1, hn.2⟩
  · rintro ⟨hw, hh, hiw, hih⟩
    rcases Option.ne_none_iff_exists'.mp hw with ⟨W, hw2⟩
    rcases Option.ne_none_iff_exists'.mp hh with ⟨H, hh2⟩
    rw [resize_of_resolved p m s W H hw2 hh2 hiw hih]
    constructor
    · simp
    · simp only [applyFlexShrink_opacityZero, fitTransform_opacityZero]
      exact unhide_opacityZero_of_hidden _ (by simp [h])

lemma step_visibilityHidden_false (p : InternalProps) (e : FitEvent)
    (s : InternalState) (h : s.visibilityHidden = false) :
    (step p e s).visibilityHidden = false := by
  cases e with
  | resizeEv om =>
    cases om with
    | none => exact h
    | some m => exact resize_visibilityHidden_false p m s h
  | parentResizeEv om =>
    cases om with
    | none => exact h
    | some m => simp [step, h]

lemma step_opacityZero_false (p : InternalProps) (e : FitEvent)
    (s : InternalState) (h : s.opacityZero = false) :
    (step p e s).opacityZero = false := by
  cases e with
  | resizeEv om =>
    cases om with
    | none => exact h
    | some m => exact resize_opacityZero_false p m s h
  | parentResizeEv om =>
    cases om with
    | none => exact h
    | some m => simp [step, h]

/-- While no nonzero measurement has arrived, the suppression stays in place. -/
lemma run_suppressed_of_no_valid (es : List (InternalProps × FitEvent)) :
    ∀ (s : InternalState), s.initialWidth = none → s.initialHeight = none →
      s.visibilityHidden = true → s.opacityZero = true →
      firstNonzeroMeasure es = none →
      (run es s).visibilityHidden = true ∧ (run es s).opacityZero = true := by
  induction es with
  | nil => intro s _ _ h3 h4 _; exact ⟨h3, h4⟩
  | cons pe es ih =>
    rcases pe with ⟨p, e⟩
    intro s h1 h2 h3 h4 hfv
    cases e with
    | resizeEv om =>
      cases om with
      | none =>
        simp only [firstNonzeroMeasure] at hfv
        exact ih s h1 h2 h3 h4 hfv
      | some m =>
        by_cases hv : m.clientWidth ≠ 0 ∧ m.clientHeight ≠ 0
        · simp [firstNonzeroMeasure, hv] at hfv
        · simp only [firstNonzeroMeasure, if_neg hv] at hfv
          have hres : resize p m s = captureParentRect m (captureInitial m s) :=
            resize_of_initial_none p m s (Or.inl h1)
          have e1 : (resize p m s).initialWidth = none := by
            rw [resize_initialWidth, captureInitial_initialWidth, if_neg hv]; exact h1
          have e2 : (resize p m s).initialHeight = none := by
            rw [resize_initialHeight, captureInitial_initialHeight, if_neg hv]; exact h2
          have e3 : (resize p m s).visibilityHidden = true := by rw [hres]; simp [h3]
          have e4 : (resize p m s).opacityZero = true := by rw [hres]; simp [h4]
          exact ih (resize p m s) e1 e2 e3 e4 hfv
    | parentResizeEv om =>
      cases om with
      | none =>
        simp only [firstNonzeroMeasure] at hfv
        exact ih s h1 h2 h3 h4 hfv
      | some m =>
        simp only [firstNonzeroMeasure] at hfv
        exact ih (parentResize m s) (by simp [h1]) (by simp [h2]) (by simp [h3])
          (by simp [h4]) hfv

/-! Gate lemmas. -/

/-- The tier chain of checkResponsive accepts exactly the widths lying in the
band of some requested tier, with the two source clauses for the last tier
merging into the single band above 1280. -/
lemma checkResponsive_true_iff (rs : List Tier) (w : ℚ) (hne : rs ≠ []) :
    checkResponsive (some rs) w = true ↔ ∃ t ∈ rs, tierBandSpec t w := by
  unfold checkResponsive
  dsimp only
  have hlen : ¬ rs.length = 0 := by simpa using hne
  rw [if_neg hlen]
  constructor
  · intro hx
    split_ifs at hx with h1 h2 h3 h4 h5 h6
    · exact ⟨Tier.sm, h1.1, h1.2⟩
    · exact ⟨Tier.md, h2.1, h2.2.2, h2.2.1⟩
    · exact ⟨Tier.lg, h3.1, h3.2.2, h3.2.1⟩
    · exact ⟨Tier.xl, h4.1, h4.2.2, h4.2.1⟩
    · exact ⟨Tier.xxl, h5.1, h5.2.2⟩
    · exact ⟨Tier.xxl, h6.1, by have := h6.2; dsimp [tierBandSpec]; linarith⟩
  · rintro ⟨t, ht, hband⟩
    split_ifs with h1 h2 h3 h4 h5 h6 <;> try rfl
    exfalso
    cases t with
    | sm => exact h1 ⟨ht, hband⟩
    | md => exact h2 ⟨ht, hband.2, hband.1⟩
    | lg => exact h3 ⟨ht, hband.2, hband.1⟩
    | xl => exact h4 ⟨ht, hband.2, hband.1⟩
    | xxl =>
      rcases le_or_lt w 1536 with hle | hgt
      · exact h5 ⟨ht, hle, hband⟩
      · exact h6 ⟨ht, hgt⟩

/-- The five spec bands classify every viewport width into exactly one tier. -/
lemma tierBand_existsUnique (w : ℚ) : ∃! t : Tier, tierBandSpec t w := by
  rcases le_or_lt w 640 with h1 | h1
  · refine ⟨Tier.sm, h1, ?_⟩
    intro t ht
    cases t with
    | sm => rfl
    | md => exact absurd ht (by dsimp [tierBandSpec]; intro hc; linarith [hc.1])
    | lg => exact absurd ht (by dsimp [tierBandSpec]; intro hc; linarith [hc.1])
    | xl => exact absurd ht (by dsimp [tierBandSpec]; intro hc; linarith [hc.1])
    | xxl => exact absurd ht (by dsimp [tierBandSpec]; intro hc; linarith)
  · rcases le_or_lt w 768 with h2 | h2
    · refine ⟨Tier.md, ⟨h1, h2⟩, ?_⟩
      intro t ht
      cases t with
      | sm => exact absurd ht (by dsimp [tierBandSpec]; intro hc; linarith)
      | md => rfl
      | lg => exact absurd ht (by dsimp [tierBandSpec]; intro hc; linarith [hc.1])
      | xl => exact absurd ht (by dsimp [tierBandSpec]; intro hc; linarith [hc.1])
      | xxl => exact absurd ht (by dsimp [tierBandSpec]; intro hc; linarith)
    · rcases le_or_lt w 1024 with h3 | h3
      · refine ⟨Tier.lg, ⟨h2, h3⟩, ?_⟩
        intro t ht
        cases t with
        | sm => exact absurd ht (by dsimp [tierBandSpec]; intro hc; linarith)
        | md => exact absurd ht (by dsimp [tierBandSpec]; intro hc; linarith [hc.2])
        | lg => rfl
        | xl => exact absurd ht (by dsimp [tierBandSpec]; intro hc; linarith [hc.1])
        | xxl => exact absurd ht (by dsimp [tierBandSpec]; intro hc; linarith)
      · rcases le_or_lt w 1280 with h4 | h4
        · refine ⟨Tier.xl, ⟨h3, h4⟩, ?_⟩
          intro t ht
          cases t with
          | sm => exact absurd ht (by dsimp [tierBandSpec]; intro hc; linarith)
          | md => exact absurd ht (by dsimp [tierBandSpec]; intro hc; linarith [hc.2])
          | lg => exact absurd ht (by dsimp [tierBandSpec]; intro hc; linarith [hc.2])
          | xl => rfl
          | xxl => exact absurd ht (by dsimp [tierBandSpec]; intro hc; linarith)
        · refine ⟨Tier.xxl, h4, ?_⟩
          intro t ht
          cases t with
          | sm => exact absurd ht (by dsimp [tierBandSpec]; intro hc; linarith)
          | md => exact absurd ht (by dsimp [tierBandSpec]; intro hc; linarith [hc.2])
          | lg => exact absurd ht (by dsimp [tierBandSpec]; intro hc; linarith [hc.2])
          | xl => exact absurd ht (by dsimp [tierBandSpec]; intro hc; linarith [hc.2])
          | xxl => rfl

/-! Branch forms of a resize invocation whose computation phase runs. -/

lemma resize_branch_width_over (p : InternalProps) (m : Measurement) (pm : ParentMeasure)
    (s : InternalState) (W H : ℚ)
    (hW : resolveDim p.width s.initialWidth = some W)
    (hH : resolveDim p.height s.initialHeight = some H)
    (hiw : s.initialWidth ≠ none) (hih : s.initialHeight ≠ none)
    (hpm : m.parent = some pm)
    (hfit : p.fitTo.getD FitAxis.width = FitAxis.width)
    (hcond : p.overflow = false ∧ H * (m.clientWidth / W) > pm.clientHeight) :
    resize p m s =
      applyFlexShrink m
        (if p.flex then
          keepSync (some W) (some H) m FitAxis.height
            { unhide (captureParentRect m (captureInitial m s)) with
                transform := some (m.clientHeight / H) }
        else
          { unhide (captureParentRect m (captureInitial m s)) with
              transform := some (m.clientHeight / H) }) := by
  rw [resize_of_resolved p m s W H hW hH hiw hih]
  unfold fitTransform
  rw [hfit, hpm]
  dsimp only
  rw [if_pos hcond]

lemma resize_branch_width_fit (p : InternalProps) (m : Measurement) (pm : ParentMeasure)
    (s : InternalState) (W H : ℚ)
    (hW : resolveDim p.width s.initialWidth = some W)
    (hH : resolveDim p.height s.initialHeight = some H)
    (hiw : s.initialWidth ≠ none) (hih : s.initialHeight ≠ none)
    (hpm : m.parent = some pm)
    (hfit : p.fitTo.getD FitAxis.width = FitAxis.width)
    (hcond : ¬(p.overflow = false ∧ H * (m.clientWidth / W) > pm.clientHeight)) :
    resize p m s =
      applyFlexShrink m
        (if p.flex then
          keepSync (some W) (some H) m FitAxis.width
            { unhide (captureParentRect m (captureInitial m s)) with
                transform := some (m.clientWidth / W) }
        else
          { unhide (captureParentRect m (captureInitial m s)) with
              transform := some (m.clientWidth / W) }) := by
  rw [resize_of_resolved p m s W H hW hH hiw hih]
  unfold fitTransform
  rw [hfit, hpm]
  dsimp only
  rw [if_neg hcond]

lemma resize_branch_height_over (p : InternalProps) (m : Measurement) (pm : ParentMeasure)
    (s : InternalState) (W H : ℚ)
    (hW : resolveDim p.width s.initialWidth = some W)
    (hH : resolveDim p.height s.initialHeight = some H)
    (hiw : s.initialWidth ≠ none) (hih : s.initialHeight ≠ none)
    (hpm : m.parent = some pm)
    (hfit : p.fitTo.getD FitAxis.width = FitAxis.height)
    (hcond : p.overflow = false ∧ W * (m.clientHeight / H) > pm.clientWidth) :
    resize p m s =
      applyFlexShrink m
        (if p.flex then
          keepSync (some W) (some H) m FitAxis.width
            { unhide (captureParentRect m (captureInitial m s)) with
                transform := some (m.clientWidth / W) }
        else
          { unhide (captureParentRect m (captureInitial m s)) with
              transform := some (m.clientWidth / W) }) := by
  rw [resize_of_resolved p m s W H hW hH hiw hih]
  unfold fitTransform
  rw [hfit, hpm]
  dsimp only
  rw [if_pos hcond]

lemma resize_branch_height_fit (p : InternalProps) (m : Measurement) (pm : ParentMeasure)
    (s : InternalState) (W H : ℚ)
    (hW : resolveDim p.width s.initialWidth = some W)
    (hH : resolveDim p.height s.initialHeight = some H)
    (hiw : s.initialWidth ≠ none) (hih : s.initialHeight ≠ none)
    (hpm : m.parent = some pm)
    (hfit : p.fitTo.getD FitAxis.width = FitAxis.height)
    (hcond : ¬(p.overflow = false ∧ W * (m.clientHeight / H) > pm.clientWidth)) :
    resize p m s =
      applyFlexShrink m
        (if p.flex then
          keepSync (some W) (some H) m FitAxis.height
            { unhide (captureParentRect m (captureInitial m s)) with
                transform := some (m.clientHeight / H) }
        else
          { unhide (captureParentRect m (captureInitial m s)) with
              transform := some (m.clientHeight / H) }) := by
  rw [resize_of_resolved p m s W H hW hH hiw hih]
  unfold fitTransform
  rw [hfit, hpm]
  dsimp only
  rw [if_neg hcond]

lemma branchForm_transform (m : Measurement) (v : ℚ) (a b : Option ℚ) (ax : FitAxis)
    (s0 : InternalState) (fl : Bool) :
    (applyFlexShrink m
      (if fl then keepSync a b m ax { s0 with transform := some v }
       else { s0 with transform := some v })).transform = some v := by
  simp only [applyFlexShrink_transform]
  split <;> simp

lemma branchForm_childPx (m : Measurement) (a b : Option ℚ) (ax : FitAxis)
    (t s : InternalState) (hw : t.childWidthPx = s.childWidthPx)
    (hh : t.childHeightPx = s.childHeightPx) :
    (applyFlexShrink m (keepSync a b m ax t)).childWidthPx =
      (keepSync a b m ax s).childWidthPx ∧
    (applyFlexShrink m (keepSync a b m ax t)).childHeightPx =
      (keepSync a b m ax s).childHeightPx := by
  simp only [applyFlexShrink_childWidthPx, applyFlexShrink_childHeightPx]
  exact keepSync_childPx_congr a b m ax t s hw hh

/-- Claim C1: for a fit recomputation whose resolved original size (W, H) has
both components nonzero, with a parent measurement pm and fit axis width, the
engine writes the single isotropic scale factor clientHeight / H and syncs
with driving axis height when overflow is disallowed and
H * (clientWidth / W) exceeds the parent client height, and otherwise writes
clientWidth / W and syncs with driving axis width; for fit axis height the
symmetric rule with the roles of width and height swapped. -/
theorem C1_fit_axis_scale (p : InternalProps) (m : Measurement) (pm : ParentMeasure)
    (s : InternalState) (W H : ℚ)
    (hW : resolveDim p.width s.initialWidth = some W)
    (hH : resolveDim p.height s.initialHeight = some H)
    (hiw : s.initialWidth ≠ none) (hih : s.initialHeight ≠ none)
    (hpm : m.parent = some pm) (hW0 : W ≠ 0) (hH0 : H ≠ 0) :
    (p.fitTo.getD FitAxis.width = FitAxis.width →
      (p.overflow = false ∧ H * (m.clientWidth / W) > pm.clientHeight →
        (resize p m s).transform = some (m.clientHeight / H) ∧
        (p.flex = true →
          (resize p m s).childWidthPx =
            (keepSync (some W) (some H) m FitAxis.height s).childWidthPx ∧
          (resize p m s).childHeightPx =
            (keepSync (some W) (some H) m FitAxis.height s).childHeightPx)) ∧
      (¬(p.overflow = false ∧ H * (m.clientWidth / W) > pm.clientHeight) →
        (resize p m s).transform = some (m.clientWidth / W) ∧
        (p.flex = true →
          (resize p m s).childWidthPx =
            (keepSync (some W) (some H) m FitAxis.width s).childWidthPx ∧
          (resize p m s).childHeightPx =
            (keepSync (some W) (some H) m FitAxis.width s).childHeightPx))) ∧
    (p.fitTo.getD FitAxis.width = FitAxis.height →
      (p.overflow = false ∧ W * (m.clientHeight / H) > pm.clientWidth →
        (resize p m s).transform = some (m.clientWidth / W) ∧
        (p.flex = true →
          (resize p m s).childWidthPx =
            (keepSync (some W) (some H) m FitAxis.width s).childWidthPx ∧
          (resize p m s).childHeightPx =
            (keepSync (some W) (some H) m FitAxis.width s).childHeightPx)) ∧
      (¬(p.overflow = false ∧ W * (m.clientHeight / H) > pm.clientWidth) →
        (resize p m s).transform = some (m.clientHeight / H) ∧
        (p.flex = true →
          (resize p m s).childWidthPx =
            (keepSync (some W) (some H) m FitAxis.height s).childWidthPx ∧
          (resize p m s).childHeightPx =
            (keepSync (some W) (some H) m FitAxis.height s).childHeightPx))) := by
  have hw0 : (InternalState.childWidthPx
      { unhide (captureParentRect m (captureInitial m s)) with
          transform := some (m.clientHeight / H) }) = s.childWidthPx := by simp
  constructor
  · intro hfit
    constructor
    · intro hcond
      rw [resize_branch_width_over p m pm s W H hW hH hiw hih hpm hfit hcond]
      refine ⟨branchForm_transform m _ _ _ _ _ _, ?_⟩
      intro hflex
      simp only [hflex, if_true]
      exact branchForm_childPx m _ _ _ _ s (by simp) (by simp)
    · intro hcond
      rw [resize_branch_width_fit p m pm s W H hW hH hiw hih hpm hfit hcond]
      refine ⟨branchForm_transform m _ _ _ _ _ _, ?_⟩
      intro hflex
      simp only [hflex, if_true]
      exact branchForm_childPx m _ _ _ _ s (by simp) (by simp)
  · intro hfit
    constructor
    · intro hcond
      rw [resize_branch_height_over p m pm s W H hW hH hiw hih hpm hfit hcond]
      refine ⟨branchForm_transform m _ _ _ _ _ _, ?_⟩
      intro hflex
      simp only [hflex, if_true]
      exact branchForm_childPx m _ _ _ _ s (by simp) (by simp)
    · intro hcond
      rw [resize_branch_height_fit p m pm s W H hW hH hiw hih hpm hfit hcond]
      refine ⟨branchForm_transform m _ _ _ _ _ _, ?_⟩
      intro hflex
      simp only [hflex, if_true]
      exact branchForm_childPx m _ _ _ _ s (by simp) (by simp)

/-- Concrete props for the C1 witness: no overrides, fit axis width, overflow
disallowed, flex off. -/
def c1props : InternalProps :=
  { width := none, height := none, fitTo := some FitAxis.width,
    overflow := false, flex := false, px := false }

/-- Concrete measurement for the C1 witness: the overflow redirect example of
the spec, original size 400 by 200, container client box 800 by 100, parent
client height 100. -/
def c1meas : Measurement :=
  { clientWidth := 800, clientHeight := 100,
    parent := some { clientWidth := 800, clientHeight := 100, rectWidth := 800, rectHeight := 100 },
    childPresent := false }

/-- Concrete state for the C1 witness: original size 400 by 200 captured. -/
def c1state : InternalState :=
  { initialState with initialWidth := some 400, initialHeight := some 200 }

/-- Witness for C1 at the overflow redirect example: fitting 400 by 200 to
container width 800 would give scaled height 400 above the parent height 100,
so the applied scale is clientHeight / H = 100 / 200. -/
theorem C1_fit_axis_scale_witness :
    (resize c1props c1meas c1state).transform = some (100 / 200) := by
  have h := C1_fit_axis_scale c1props c1meas
    { clientWidth := 800, clientHeight := 100, rectWidth := 800, rectHeight := 100 }
    c1state 400 200 rfl rfl (by decide) (by decide) rfl (by decide) (by decide)
  exact (h.1 rfl).1 ⟨rfl, by norm_num [c1meas]⟩ |>.1

/-- Claim C4: for a ratio sync invocation with resolved original size (W, H)
and parent client size (pw, ph), all nonzero and with a first child present:
when the ratios W / H and pw / ph differ, driving axis width sets the explicit
child width to W and the child height to H * ((W / H) / (pw / ph)), while
driving axis height sets the explicit child height to H and the child width to
W * ((pw / ph) / (W / H)); when the ratios are equal the state, and with it
the explicit child size, is unchanged for either axis. -/
theorem C4_keepSync_ratio (W H : ℚ) (m : Measurement) (pm : ParentMeasure)
    (s : InternalState) (hpm : m.parent = some pm) (hchild : m.childPresent = true)
    (hW0 : W ≠ 0) (hH0 : H ≠ 0)
    (hpw : pm.clientWidth ≠ 0) (hph : pm.clientHeight ≠ 0) :
    (W / H ≠ pm.clientWidth / pm.clientHeight →
      (keepSync (some W) (some H) m FitAxis.width s).childWidthPx = some W ∧
      (keepSync (some W) (some H) m FitAxis.width s).childHeightPx =
        some (H * ((W / H) / (pm.clientWidth / pm.clientHeight))) ∧
      (keepSync (some W) (some H) m FitAxis.height s).childHeightPx = some H ∧
      (keepSync (some W) (some H) m FitAxis.height s).childWidthPx =
        some (W * ((pm.clientWidth / pm.clientHeight) / (W / H)))) ∧
    (W / H = pm.clientWidth / pm.clientHeight →
      keepSync (some W) (some H) m FitAxis.width s = s ∧
      keepSync (some W) (some H) m FitAxis.height s = s) := by
  unfold keepSync
  rw [hpm]
  dsimp only
  constructor
  · intro hne
    rw [if_pos hne, if_pos hne]
    simp [hchild]
  · intro heq
    constructor <;> rw [if_neg (by simp [heq])]

/-- Concrete measurement for the C4 witness: parent client box 400 by 100,
child present. -/
def c4meas : Measurement :=
  { clientWidth := 400, clientHeight := 100,
    parent := some { clientWidth := 400, clientHeight := 100, rectWidth := 400, rectHeight := 100 },
    childPresent := true }

/-- Witness for C4 at the spec example: original ratio 400 / 200 = 2 and
parent ratio 400 / 100 = 4 differ, so with driving axis width the explicit
child height becomes 200 * (2 / 4) = 100 while the child width stays 400. -/
theorem C4_keepSync_ratio_witness :
    (keepSync (some 400) (some 200) c4meas FitAxis.width initialState).childWidthPx = some 400 ∧
    (keepSync (some 400) (some 200) c4meas FitAxis.width initialState).childHeightPx = some 100 := by
  have h := (C4_keepSync_ratio 400 200 c4meas
    { clientWidth := 400, clientHeight := 100, rectWidth := 400, rectHeight := 100 }
    initialState rfl rfl (by decide) (by decide) (by decide) (by decide)).1 (by norm_num)
  refine ⟨h.1, ?_⟩
  rw [h.2.1]
  norm_num

/-- Claim C5: over every event sequence of one mount, the original size is
captured exactly at the first measurement whose dimensions are both nonzero,
and once both initial cells are set they never change again, however often the
current size changes afterwards. -/
theorem C5_initial_size_frozen :
    (∀ (es : List (InternalProps × FitEvent)) (s : InternalState) (w h : ℚ),
      s.initialWidth = some w → s.initialHeight = some h →
      (run es s).initialWidth = some w ∧ (run es s).initialHeight = some h) ∧
    (∀ es : List (InternalProps × FitEvent),
      (run es initialState).initialWidth =
        (firstNonzeroMeasure es).map Measurement.clientWidth ∧
      (run es initialState).initialHeight =
        (firstNonzeroMeasure es).map Measurement.clientHeight) :=
  ⟨fun es s w h hw hh => run_initial_some es s w h hw hh,
   fun es => run_initial_from_none es initialState rfl rfl⟩

/-- Witness for C5: with the original size 400 by 200 already captured, a
further resize event with client box 800 by 100 leaves it unchanged. -/
theorem C5_initial_size_frozen_witness :
    (run [(c1props, FitEvent.resizeEv (some c1meas))] c1state).initialWidth = some 400 ∧
    (run [(c1props, FitEvent.resizeEv (some c1meas))] c1state).initialHeight = some 200 :=
  C5_initial_size_frozen.1 [(c1props, FitEvent.resizeEv (some c1meas))] c1state 400 200 rfl rfl

/-- Claim C6: the first render applies the visibility and opacity suppression;
while no nonzero measurement has arrived it stays in place; a resize call
removes it exactly when the resolved target size and the captured initial size
of the pre-call render are all present; and once removed no event of the mount
ever re-applies it. -/
theorem C6_suppression_lift :
    (initialState.visibilityHidden = true ∧ initialState.opacityZero = true) ∧
    (∀ es : List (InternalProps × FitEvent), firstNonzeroMeasure es = none →
      (run es initialState).visibilityHidden = true ∧
      (run es initialState).opacityZero = true) ∧
    (∀ (p : InternalProps) (m : Measurement) (s : InternalState),
      s.visibilityHidden = true →
      (((resize p m s).visibilityHidden = false ∧ (resize p m s).opacityZero = false) ↔
        (resolveDim p.width s.initialWidth ≠ none ∧
         resolveDim p.height s.initialHeight ≠ none ∧
         s.initialWidth ≠ none ∧ s.initialHeight ≠ none))) ∧
    (∀ (p : InternalProps) (e : FitEvent) (s : InternalState),
      s.visibilityHidden = false → (step p e s).visibilityHidden = false) ∧
    (∀ (p : InternalProps) (e : FitEvent) (s : InternalState),
      s.opacityZero = false → (step p e s).opacityZero = false) :=
  ⟨⟨rfl, rfl⟩,
   fun es h => run_suppressed_of_no_valid es initialState rfl rfl rfl rfl h,
   fun p m s h => resize_unhides_iff p m s h,
   fun p e s h => step_visibilityHidden_false p e s h,
   fun p e s h => step_opacityZero_false p e s h⟩

/-- Witness for C6: with the original size captured and no overrides, a resize
call removes both suppression properties. -/
theorem C6_suppression_lift_witness :
    (resize c1props c1meas c1state).visibilityHidden = false ∧
    (resize c1props c1meas c1state).opacityZero = false :=
  (C6_suppression_lift.2.2.1 c1props c1meas c1state rfl).mpr
    ⟨by decide, by decide, by decide, by decide⟩

/-- Props without overrides for the idempotence inputs. -/
def c8props : InternalProps :=
  { width := none, height := none, fitTo := none,
    overflow := false, flex := false, px := false }

/-- Measurement for the idempotence inputs: client box 800 by 600, parent
client box 800 by 600. -/
def c8meas : Measurement :=
  { clientWidth := 800, clientHeight := 600,
    parent := some { clientWidth := 800, clientHeight := 600, rectWidth := 800, rectHeight := 600 },
    childPresent := false }

/-- Counterexample to claim C8 as stated: from the fresh mount state the first
resize call with this measurement captures the original size but computes no
scale factor, while the second call with the identical inputs computes one, so
the second run does not leave the computed transform unchanged. -/
theorem C8_idempotence_counterexample :
    (resize c8props c8meas (resize c8props c8meas initialState)).transform ≠
      (resize c8props c8meas initialState).transform := by
  have h1 : resize c8props c8meas initialState =
      captureParentRect c8meas (captureInitial c8meas initialState) :=
    resize_of_initial_none _ _ _ (Or.inl rfl)
  have h1t : (resize c8props c8meas initialState).transform = none := by
    rw [h1]; simp [initialState]
  have hiw : (resize c8props c8meas initialState).initialWidth = some 800 := by
    rw [resize_initialWidth, captureInitial_initialWidth]
    norm_num [c8meas, initialState]
  have hih : (resize c8props c8meas initialState).initialHeight = some 600 := by
    rw [resize_initialHeight, captureInitial_initialHeight]
    norm_num [c8meas, initialState]
  have hchar := resize_transform_char c8props c8meas (resize c8props c8meas initialState)
    800 600 (by rw [hiw]; rfl) (by rw [hih]; rfl) (by rw [hiw]; simp) (by rw [hih]; simp)
  rw [h1t, hchar]
  simp [c8props, c8meas]

/-- Claim C8 amended: once the original size has been captured, recomputing
with identical container and parent measurements yields the identical scale
factor both times and the second run leaves the computed transform unchanged. -/
theorem C8_idempotent_after_capture (p : InternalProps) (m : Measurement)
    (s : InternalState) (hiw : s.initialWidth ≠ none) (hih : s.initialHeight ≠ none) :
    (resize p m (resize p m s)).transform = (resize p m s).transform := by
  obtain ⟨iw, hiw2⟩ := Option.ne_none_iff_exists'.mp hiw
  obtain ⟨ih, hih2⟩ := Option.ne_none_iff_exists'.mp hih
  have e1 : (resize p m s).initialWidth = s.initialWidth := by
    rw [resize_initialWidth, captureInitial_initialWidth, hiw2]
    split <;> simp
  have e2 : (resize p m s).initialHeight = s.initialHeight := by
    rw [resize_initialHeight, captureInitial_initialHeight, hih2]
    split <;> simp
  obtain ⟨W, hW⟩ : ∃ W, resolveDim p.width s.initialWidth = some W := by
    cases hp : p.width with
    | some v => exact ⟨v, by simp [resolveDim, hp]⟩
    | none => exact ⟨iw, by simp [resolveDim, hp, hiw2]⟩
  obtain ⟨H, hH⟩ : ∃ H, resolveDim p.height s.initialHeight = some H := by
    cases hp : p.height with
    | some v => exact ⟨v, by simp [resolveDim, hp]⟩
    | none => exact ⟨ih, by simp [resolveDim, hp, hih2]⟩
  have hW2 : resolveDim p.width (resize p m s).initialWidth = some W := by
    rw [e1]; exact hW
  have hH2 : resolveDim p.height (resize p m s).initialHeight = some H := by
    rw [e2]; exact hH
  have hiw3 : (resize p m s).initialWidth ≠ none := by rw [e1, hiw2]; simp
  have hih3 : (resize p m s).initialHeight ≠ none := by rw [e2, hih2]; simp
  rw [resize_transform_char p m (resize p m s) W H hW2 hH2 hiw3 hih3,
      resize_transform_char p m s W H hW hH hiw hih]
  rcases hfit : p.fitTo.getD FitAxis.width <;> rcases hpar : m.parent with _ | pm <;>
    simp only [hfit, hpar]

/-- Witness for the amended C8 at a state with the original size captured. -/
theorem C8_idempotent_after_capture_witness :
    (resize c8props c8meas (resize c8props c8meas c1state)).transform =
      (resize c8props c8meas c1state).transform :=
  C8_idempotent_after_capture c8props c8meas c1state (by decide) (by decide)

/-- Props with both overrides for the C9 inputs. -/
def c9props : InternalProps :=
  { width := some 400, height := some 200, fitTo := none,
    overflow := false, flex := false, px := false }

/-- Counterexample to claim C9 as stated: with both overrides provided, the
first resize call from the fresh state still auto-measures the element (it
captures initialWidth 800) and computes no transform, because the computation
is gated on the captured initial size of the pre-call render. -/
theorem C9_override_counterexample :
    (resize c9props c8meas initialState).transform = none ∧
    (resize c9props c8meas initialState).initialWidth = some 800 := by decide

/-- Claim C9 amended: when both overrides are provided they are used as the
original size of the fit computation in place of the measured values, whatever
was captured, but the computation still requires the measured initial size to
have been captured in state. -/
theorem C9_override_used_after_capture (p : InternalProps) (m : Measurement)
    (pm : ParentMeasure) (s : InternalState) (W H iw ih : ℚ)
    (hpw : p.width = some W) (hph : p.height = some H)
    (hiw : s.initialWidth = some iw) (hih : s.initialHeight = some ih)
    (hpm : m.parent = some pm)
    (hfit : p.fitTo.getD FitAxis.width = FitAxis.width) :
    (resize p m s).transform =
      some (if p.overflow = false ∧ H * (m.clientWidth / W) > pm.clientHeight then
        m.clientHeight / H else m.clientWidth / W) := by
  have hW : resolveDim p.width s.initialWidth = some W := by simp [resolveDim, hpw]
  have hH : resolveDim p.height s.initialHeight = some H := by simp [resolveDim, hph]
  rw [resize_transform_char p m s W H hW hH (by simp [hiw]) (by simp [hih])]
  simp only [hfit, hpm]

/-- Witness for the amended C9: overrides 400 by 200 drive the scale even
though the captured initial size is 123 by 45. -/
theorem C9_override_used_after_capture_witness :
    (resize c9props c8meas
      { initialState with initialWidth := some 123, initialHeight := some 45 }).transform =
      some 2 := by
  have h := C9_override_used_after_capture c9props c8meas
    { clientWidth := 800, clientHeight := 600, rectWidth := 800, rectHeight := 600 }
    { initialState with initialWidth := some 123, initialHeight := some 45 }
    400 200 123 45 rfl rfl rfl rfl rfl rfl
  rw [h, if_neg (by norm_num [c9props, c8meas])]
  norm_num [c8meas]

/-- Claim C10: the public component always invokes the fit engine with fit
axis width; the fitTo value supplied by the caller is overridden by the hard
coded attribute written after the props spread, so the engine behaves exactly
as with fit axis width for every caller supplied fitTo and the height driven
branch is unreachable through the public component. -/
theorem C10_public_fitTo_width (p : FlexyFitProps) (m : Measurement) (s : InternalState) :
    (toInternalProps p).fitTo = some FitAxis.width ∧
    (toInternalProps p).fitTo.getD FitAxis.width = FitAxis.width ∧
    resize (toInternalProps p) m s =
      resize (toInternalProps { p with fitTo := some FitAxis.height }) m s :=
  ⟨rfl, rfl, rfl⟩

/-- Breakpoint spec with only width.max 1024, for the gate bug inputs. -/
def bp1024 : Breakpoint :=
  { width := some { min := none, max := some 1024 }, height := none }

/-- Claim C2 evaluated at the failing input: at viewport 800 by 600 the range
condition of the spec with only width.max 1024 holds (and it fails at 1200),
yet the mounted gate does not render the subtree, because checkBreakpoint
stores the condition through setResponsiveView and breakpointView stays
false whenever a breakpoint prop is supplied. -/
theorem C2_breakpoint_gate_bug :
    breakpointCond bp1024 800 600 = true ∧
    breakpointCond bp1024 1200 600 = false ∧
    gateVisible (gateMount none (some bp1024) 800 600) = false ∧
    (gateMount none (some bp1024) 800 600).breakpointView = false := by decide

/-- Claim C7 evaluated at the failing input: the mount effect registers only
checkResponsive as the resize listener, so a viewport resize from 800 to 1200
leaves the gate state unchanged even though the range condition of the
breakpoint spec flipped from true to false. -/
theorem C7_resize_listener_bug :
    gateResize none 1200 (gateMount none (some bp1024) 800 600) =
      gateMount none (some bp1024) 800 600 ∧
    breakpointCond bp1024 800 600 = true ∧
    breakpointCond bp1024 1200 600 = false := by decide

/-- Claim C3: with a nonempty requested tier set and no breakpoint prop, the
mounted gate renders the subtree iff the viewport width lies in the band of a
requested tier (sm at most 640, md above 640 up to 768, lg above 768 up to
1024, xl above 1024 up to 1280, and the two source clauses for the last tier
together covering every width above 1280), and the five bands classify every
width into exactly one tier, in particular at the boundary values. -/
theorem C3_tier_gate (rs : List Tier) (w h : ℚ) (hne : rs ≠ []) :
    (gateVisible (gateMount (some rs) none w h) = true ↔ ∃ t ∈ rs, tierBandSpec t w) ∧
    ∀ v : ℚ, ∃! t : Tier, tierBandSpec t v := by
  constructor
  · have hg : gateVisible (gateMount (some rs) none w h) = checkResponsive (some rs) w := by
      simp [gateVisible, gateMount, checkBreakpointStep, checkResponsiveStep, gateStart]
    rw [hg]
    exact checkResponsive_true_iff rs w hne
  · exact tierBand_existsUnique

/-- Witness for C3: the set with the single tier md makes the gate visible at
width 700. -/
theorem C3_tier_gate_witness :
    gateVisible (gateMount (some [Tier.md]) none 700 500) = true :=
  (C3_tier_gate [Tier.md] 700 500 (by decide)).1.mpr
    ⟨Tier.md, by decide, by norm_num [tierBandSpec]⟩

end FlexyFitModel
